import Mathlib

/-!
Shallow embedding of the XDBF codec header
(src/src/xenia/kernel/xam/xdbf/xdbf.h) of the xenia-canary repository.

Machine integers are embedded as Nat; 32-bit and 64-bit stores are reduced
modulo 2 to the width where the code can overflow.  Wide strings are lists of
16-bit code units (wchar_t is two bytes in this codebase: the achievement
decoder advances the text cursor by length * 2 + 2 bytes per string).
Memory regions are lists: a list of 16-bit units for text regions, a list of
bytes for the out-of-line setting buffer.

Helpers that live elsewhere in the repository (xe namespace byte utilities in
base/memory.h, the profile id to mandated type table of xdbf_xbox.h, the host
clock of base/clock.h) are not under src/ and are modelled from the spec; each
such definition carries a doc comment saying so.
-/

namespace Xdbf

/-- Modelled from the spec: the codec stores every multi-byte field in the
format byte order, opposite to the host order, so the xe byte-swap helper
(base/memory.h, outside src/) exchanges the two bytes of a 16-bit unit. -/
def byteSwap16 (u : Nat) : Nat := u % 256 * 256 + u / 256 % 256

/-- Embeds ReadNullTermString (xdbf.h lines 52-61).  The argument is the
memory readable from the given pointer onward, as a list of stored 16-bit
units; the function byte-swaps each unit and accumulates until it meets a
zero unit.  The C++ code takes only a pointer and no length: it keeps
scanning regardless of where the owning entry range ends. -/
def ReadNullTermString : List Nat → List Nat
  | [] => []
  | u :: rest =>
    if byteSwap16 u = 0 then [] else byteSwap16 u :: ReadNullTermString rest

/-- AchievementFlags constant kAchievedOnline (xdbf.h line 135). -/
def kAchievedOnline : Nat := 0x10000

/-- AchievementFlags constant kAchieved (xdbf.h line 136). -/
def kAchieved : Nat := 0x20000

/-- AchievementFlags constant kNotAchievable (xdbf.h line 137). -/
def kNotAchievable : Nat := 0x40000

/-- AchievementFlags constant kWasNotAchievable (xdbf.h line 138). -/
def kWasNotAchievable : Nat := 0x80000

/-- Embeds struct Achievement (xdbf.h lines 143-212).  Strings are lists of
16-bit code units. -/
structure Achievement where
  id : Nat := 0
  label : List Nat := []
  description : List Nat := []
  unachieved_desc : List Nat := []
  image_id : Nat := 0
  gamerscore : Nat := 0
  flags : Nat := 0
  unlock_time : Nat := 0
deriving DecidableEq

/-- Embeds Achievement::IsUnlockable (xdbf.h lines 163-166): the C++ boolean
conversion of flags AND mask is the test against zero. -/
def Achievement.IsUnlockable (a : Achievement) : Bool :=
  (a.flags &&& kNotAchievable == 0) || (a.flags &&& kWasNotAchievable != 0)

/-- Embeds Achievement::IsUnlocked (xdbf.h lines 168-170). -/
def Achievement.IsUnlocked (a : Achievement) : Bool :=
  a.flags &&& kAchieved != 0

/-- Embeds Achievement::IsUnlockedOnline (xdbf.h lines 172-174). -/
def Achievement.IsUnlockedOnline (a : Achievement) : Bool :=
  a.flags &&& kAchievedOnline != 0

/-- Embeds Achievement::Unlock (xdbf.h lines 176-187).  The host time read
from Clock::QueryHostSystemTime (base/clock.h, outside src/) is modelled from
the spec as the parameter now. -/
def Achievement.Unlock (a : Achievement) (online : Bool) (now : Nat) :
    Achievement :=
  if a.IsUnlockable then
    let f := a.flags ||| kAchieved
    let f := if online then f ||| kAchievedOnline else f
    { a with flags := f, unlock_time := now }
  else a

/-- Embeds Achievement::Lock (xdbf.h lines 189-193); the C++ bitwise
complement on uint32_t is the xor with the all-ones 32-bit mask. -/
def Achievement.Lock (a : Achievement) : Achievement :=
  { a with
    flags := a.flags &&& (0xFFFFFFFF ^^^ kAchieved) &&&
      (0xFFFFFFFF ^^^ kAchievedOnline),
    unlock_time := 0 }

/-- Embeds X_XUSER_DATA_TYPE (xdbf_xbox.h via xenia/xbox.h; the enumerators
are the ones named by xdbf.h). -/
inductive XUserDataType where
  | kNull
  | kInt32
  | kInt64
  | kDouble
  | kUnicode
  | kFloat
  | kBinary
  | kDateTime
deriving DecidableEq

/-- Error raised when a fatal assertion fires; the only assertion in the
embedded code is the mandated-type check of the Setting value setters. -/
inductive XdbfError where
  | TypeMismatch
deriving DecidableEq

/-- Embeds struct Setting (xdbf.h lines 214-309).  The C++ X_XUSER_DATA is a
union overlaying nData, fData, i64Data, dblData and string.cbData in one
8-byte slot; no claim inspects that aliasing, so each named member is a
separate field here.  Float and double payloads are carried as raw bit
patterns in Nat fields and never inspected.  extraData is the out-of-line
buffer as a list of bytes. -/
structure Setting where
  id : Nat := 0
  type : XUserDataType := XUserDataType.kNull
  nData : Nat := 0
  fData : Nat := 0
  i64Data : Nat := 0
  dblData : Nat := 0
  cbData : Nat := 0
  extraData : List Nat := []
deriving DecidableEq

/-- Embeds Setting::Value(uint32_t) (xdbf.h lines 249-255).  The mandated
type of a setting id comes from the XPROFILEID_TYPE table (xdbf_xbox.h,
outside src/); modelled from the spec as an explicit external table argument.
The C++ sets the tag, asserts the tag equals the mandated type (a fatal
assertion, modelled as the TypeMismatch error), then stores the value and
clears the out-of-line buffer. -/
def Setting.ValueU32 (table : Nat → XUserDataType) (s : Setting) (v : Nat) :
    Except XdbfError Setting :=
  let ty := XUserDataType.kInt32
  if table s.id = ty then
    Except.ok { s with type := ty, nData := v % 2 ^ 32, extraData := [] }
  else Except.error XdbfError.TypeMismatch

/-- Embeds Setting::Value(uint64_t) (xdbf.h lines 257-267): the tag starts as
kInt64 and is changed to kDateTime when the mandated type is kDateTime,
before the mandated-type assertion. -/
def Setting.ValueU64 (table : Nat → XUserDataType) (s : Setting) (v : Nat) :
    Except XdbfError Setting :=
  let ty := if table s.id = XUserDataType.kDateTime then
    XUserDataType.kDateTime else XUserDataType.kInt64
  if table s.id = ty then
    Except.ok { s with type := ty, i64Data := v % 2 ^ 64, extraData := [] }
  else Except.error XdbfError.TypeMismatch

/-- Embeds Setting::Value(float) (xdbf.h lines 269-275); the payload is the
raw bit pattern. -/
def Setting.ValueF32 (table : Nat → XUserDataType) (s : Setting)
    (bits : Nat) : Except XdbfError Setting :=
  let ty := XUserDataType.kFloat
  if table s.id = ty then
    Except.ok { s with type := ty, fData := bits % 2 ^ 32, extraData := [] }
  else Except.error XdbfError.TypeMismatch

/-- Embeds Setting::Value(double) (xdbf.h lines 277-283); the payload is the
raw bit pattern. -/
def Setting.ValueF64 (table : Nat → XUserDataType) (s : Setting)
    (bits : Nat) : Except XdbfError Setting :=
  let ty := XUserDataType.kDouble
  if table s.id = ty then
    Except.ok { s with type := ty, dblData := bits % 2 ^ 64, extraData := [] }
  else Except.error XdbfError.TypeMismatch

/-- Big-endian byte encoding of a list of 16-bit units: what
xe::copy_and_swap of wchar_t units leaves in host memory (modelled from the
spec statement that string code units are stored in the format byte order;
copy_and_swap lives in base/memory.h, outside src/). -/
def encodeUnits : List Nat → List Nat
  | [] => []
  | u :: rest => u / 256 % 256 :: u % 256 :: encodeUnits rest

/-- Reassembles the 16-bit units a reader of the buffer sees: each byte pair
is byte-swapped back on read, so a stored pair b0, b1 denotes the unit
b0 * 256 + b1.  A trailing odd byte is not a unit (the C++ divides the byte
count by the unit size). -/
def pairsToUnits : List Nat → List Nat
  | b0 :: b1 :: rest => (b0 * 256 + b1) :: pairsToUnits rest
  | _ => []

/-- Embeds Setting::Value(const std::wstring&) (xdbf.h lines 285-297): tag
kUnicode, mandated-type assertion, zero the inline slot, record the byte
length including the terminator, resize the buffer to that length (resize
zero-fills), copy-and-swap the characters into it and write a zero unit in
the last two bytes. -/
def Setting.ValueWString (table : Nat → XUserDataType) (s : Setting)
    (w : List Nat) : Except XdbfError Setting :=
  let ty := XUserDataType.kUnicode
  if table s.id = ty then
    Except.ok { s with
      type := ty
      i64Data := 0
      cbData := (w.length + 1) * 2
      extraData := encodeUnits w ++ [0, 0] }
  else Except.error XdbfError.TypeMismatch

/-- Embeds Setting::ValueString (xdbf.h lines 299-308): asserts the tag is
kUnicode (modelled as none), swaps the buffer back into host order and reads
a wide string from it up to the terminator.  The C++ string constructor scans
for a zero unit and would read past the swapped buffer when none is present;
that out-of-range scan is modelled as none. -/
def Setting.ValueString (s : Setting) : Option (List Nat) :=
  if s.type = XUserDataType.kUnicode then
    let units := pairsToUnits s.extraData
    if 0 ∈ units then some (units.takeWhile (· != 0)) else none
  else none

/-- Embeds the binary-value constructor
Setting(X_XDBF_SETTING_ID, const std::initializer_list&) (xdbf.h lines
226-229): it stores the id, copies the bytes into extraData and sets the tag
to kBinary; it calls no value setter and consults no mandated-type table.
The C++ leaves the 8-byte union slot uninitialized; the never-inspected
numeric fields are 0 here. -/
def mkBinarySetting (id : Nat) (bytes : List Nat) : Setting :=
  { id := id, type := XUserDataType.kBinary, extraData := bytes }

/-- One value supplied to a Setting through the typed C++ overloads of
Setting::Value; float and double carry raw bit patterns. -/
inductive TypedValue where
  | u32 (v : Nat)
  | u64 (v : Nat)
  | flt (bits : Nat)
  | dbl (bits : Nat)
  | str (w : List Nat)
deriving DecidableEq

/-- The tag that each C++ Value overload assigns before its mandated-type
assertion (before the kDateTime adjustment of the uint64_t overload). -/
def naturalType : TypedValue → XUserDataType
  | TypedValue.u32 _ => XUserDataType.kInt32
  | TypedValue.u64 _ => XUserDataType.kInt64
  | TypedValue.flt _ => XUserDataType.kFloat
  | TypedValue.dbl _ => XUserDataType.kDouble
  | TypedValue.str _ => XUserDataType.kUnicode

/-- Dispatch on the C++ overload set of Setting::Value. -/
def Setting.SetValue (table : Nat → XUserDataType) (s : Setting) :
    TypedValue → Except XdbfError Setting
  | TypedValue.u32 v => s.ValueU32 table v
  | TypedValue.u64 v => s.ValueU64 table v
  | TypedValue.flt b => s.ValueF32 table b
  | TypedValue.dbl b => s.ValueF64 table b
  | TypedValue.str w => s.ValueWString table w

/-- Modelled from the spec: X_XDBF_AVATARAWARDS_COUNTER (xdbf_xbox.h, outside
src/) is a pair of u32 counts. -/
structure AvatarAwardsCounter where
  earned : Nat := 0
  possible : Nat := 0
deriving DecidableEq

/-- Embeds struct TitlePlayed (xdbf.h lines 63-113); the title name is a list
of 16-bit code units. -/
structure TitlePlayed where
  title_id : Nat := 0
  title_name : List Nat := []
  achievements_possible : Nat := 0
  achievements_earned : Nat := 0
  gamerscore_total : Nat := 0
  gamerscore_earned : Nat := 0
  reserved_achievement_count : Nat := 0
  all_avatar_awards : AvatarAwardsCounter := {}
  male_avatar_awards : AvatarAwardsCounter := {}
  female_avatar_awards : AvatarAwardsCounter := {}
  reserved_flags : Nat := 0
  last_played : Nat := 0
deriving DecidableEq

/-- The destination record region that TitlePlayed::WriteGPD mutates: the
X_XDBF_GPD_TITLEPLAYED header fields plus the memory that follows the header,
as a list of stored 16-bit units with whatever contents it had before the
call. -/
structure GpdTitleDest where
  title_id : Nat := 0
  achievements_possible : Nat := 0
  achievements_earned : Nat := 0
  gamerscore_total : Nat := 0
  gamerscore_earned : Nat := 0
  reserved_achievement_count : Nat := 0
  all_avatar_awards : AvatarAwardsCounter := {}
  male_avatar_awards : AvatarAwardsCounter := {}
  female_avatar_awards : AvatarAwardsCounter := {}
  reserved_flags : Nat := 0
  last_played : Nat := 0
  text : List Nat := []
deriving DecidableEq

/-- Embeds TitlePlayed::WriteGPD (xdbf.h lines 94-112): it assigns every
header field, then copy-and-swaps exactly title_name.size() characters into
the memory after the header; units of the destination beyond that count keep
their previous contents. -/
def TitlePlayed.WriteGPD (t : TitlePlayed) (dest : GpdTitleDest) :
    GpdTitleDest :=
  { title_id := t.title_id
    achievements_possible := t.achievements_possible
    achievements_earned := t.achievements_earned
    gamerscore_total := t.gamerscore_total
    gamerscore_earned := t.gamerscore_earned
    reserved_achievement_count := t.reserved_achievement_count
    all_avatar_awards := t.all_avatar_awards
    male_avatar_awards := t.male_avatar_awards
    female_avatar_awards := t.female_avatar_awards
    reserved_flags := t.reserved_flags
    last_played := t.last_played
    text := t.title_name.map byteSwap16 ++ dest.text.drop t.title_name.length }

/-! Helper lemmas shared by the claim theorems. -/

theorem isUnlocked_eq_testBit (a : Achievement) :
    a.IsUnlocked = a.flags.testBit 17 := by
  have h : kAchieved = 2 ^ 17 := by norm_num [kAchieved]
  rw [Achievement.IsUnlocked, h, Nat.and_two_pow]
  rcases hb : a.flags.testBit 17 <;> simp [hb, (Nat.two_pow_pos 17).ne']

theorem isUnlockedOnline_eq_testBit (a : Achievement) :
    a.IsUnlockedOnline = a.flags.testBit 16 := by
  have h : kAchievedOnline = 2 ^ 16 := by norm_num [kAchievedOnline]
  rw [Achievement.IsUnlockedOnline, h, Nat.and_two_pow]
  rcases hb : a.flags.testBit 16 <;> simp [hb, (Nat.two_pow_pos 16).ne']

theorem isUnlockable_eq_testBit (a : Achievement) :
    a.IsUnlockable = (!a.flags.testBit 18 || a.flags.testBit 19) := by
  have h18 : kNotAchievable = 2 ^ 18 := by norm_num [kNotAchievable]
  have h19 : kWasNotAchievable = 2 ^ 19 := by norm_num [kWasNotAchievable]
  rw [Achievement.IsUnlockable, h18, h19, Nat.and_two_pow, Nat.and_two_pow]
  rcases hb : a.flags.testBit 18 <;> rcases hc : a.flags.testBit 19 <;>
    simp [hb, hc, (Nat.two_pow_pos 18).ne', (Nat.two_pow_pos 19).ne']

theorem testBit_kAchieved (i : Nat) :
    kAchieved.testBit i = decide (i = 17) := by
  have h : kAchieved = 2 ^ 17 := by norm_num [kAchieved]
  rcases eq_or_ne i 17 with hi | hi
  · subst hi; decide
  · simp [h, hi, Nat.testBit_two_pow_of_ne (Ne.symm hi)]

theorem testBit_kAchievedOnline (i : Nat) :
    kAchievedOnline.testBit i = decide (i = 16) := by
  have h : kAchievedOnline = 2 ^ 16 := by norm_num [kAchievedOnline]
  rcases eq_or_ne i 16 with hi | hi
  · subst hi; decide
  · simp [h, hi, Nat.testBit_two_pow_of_ne (Ne.symm hi)]

theorem unlock_flags_pos (a : Achievement) (online : Bool) (now : Nat)
    (h : a.IsUnlockable = true) :
    (a.Unlock online now).flags =
      (if online then a.flags ||| kAchieved ||| kAchievedOnline
       else a.flags ||| kAchieved) ∧
    (a.Unlock online now).unlock_time = now := by
  cases online <;> simp [Achievement.Unlock, h]

/-- C1: for every Achievement, Unlock(online) is a no-op when IsUnlockable()
is false; otherwise it sets the Achieved bit, sets the AchievedOnline bit
exactly when online is true (every other flag bit is unchanged), and
overwrites the unlock timestamp with the current host time, with no
dependence on whether the Achieved bit was already set. -/
theorem C1_unlock_semantics (a : Achievement) (online : Bool) (now : Nat) :
    (a.IsUnlockable = false → a.Unlock online now = a) ∧
    (a.IsUnlockable = true →
      (a.Unlock online now).unlock_time = now ∧
      (a.Unlock online now).IsUnlocked = true ∧
      (a.Unlock online now).flags.testBit 16 =
        (online || a.flags.testBit 16) ∧
      ∀ i, i ≠ 16 → i ≠ 17 →
        (a.Unlock online now).flags.testBit i = a.flags.testBit i) := by
  have e17 : kAchieved = 2 ^ 17 := by norm_num [kAchieved]
  have e16 : kAchievedOnline = 2 ^ 16 := by norm_num [kAchievedOnline]
  constructor
  · intro h; simp [Achievement.Unlock, h]
  · intro h
    obtain ⟨hf, ht⟩ := unlock_flags_pos a online now h
    refine ⟨ht, ?_, ?_, ?_⟩
    · rw [isUnlocked_eq_testBit, hf]
      cases online <;> simp [Nat.testBit_lor, testBit_kAchieved]
    · rw [hf]
      cases online <;>
        simp [Nat.testBit_lor, testBit_kAchieved, testBit_kAchievedOnline]
    · intro i h16 h17
      rw [hf]
      cases online <;>
        simp [Nat.testBit_lor, testBit_kAchieved, testBit_kAchievedOnline,
          h16, h17]

/-- Witness for C1: with NotAchievable set and WasNotAchievable unset the
call is a no-op, and on an already-achieved record the timestamp is
re-stamped. -/
theorem C1_unlock_witness :
    ({ flags := 0x60000 } : Achievement).Unlock true 42 =
      { flags := 0x60000 } ∧
    (({ flags := 0x20000, unlock_time := 7 } : Achievement).Unlock true
      42).unlock_time = 42 :=
  ⟨(C1_unlock_semantics { flags := 0x60000 } true 42).1 (by decide),
   ((C1_unlock_semantics { flags := 0x20000, unlock_time := 7 } true 42).2
     (by decide)).1⟩

/-- C2: IsUnlockable() is true iff the NotAchievable bit is clear or the
WasNotAchievable bit is set; with both set it is still true, and the result
depends only on flag bits 18 and 19 (in particular not on the Achieved
bit). -/
theorem C2_isUnlockable_char (a : Achievement) :
    (a.IsUnlockable = true ↔
      (a.flags &&& kNotAchievable = 0 ∨ a.flags &&& kWasNotAchievable ≠ 0)) ∧
    (a.flags &&& kNotAchievable ≠ 0 → a.flags &&& kWasNotAchievable ≠ 0 →
      a.IsUnlockable = true) ∧
    (∀ b : Achievement, b.flags.testBit 18 = a.flags.testBit 18 →
      b.flags.testBit 19 = a.flags.testBit 19 →
      b.IsUnlockable = a.IsUnlockable) := by
  have hmain : a.IsUnlockable = true ↔
      (a.flags &&& kNotAchievable = 0 ∨ a.flags &&& kWasNotAchievable ≠ 0) := by
    simp [Achievement.IsUnlockable]
  refine ⟨hmain, fun _ h2 => hmain.mpr (Or.inr h2), fun b h18 h19 => ?_⟩
  rw [isUnlockable_eq_testBit, isUnlockable_eq_testBit, h18, h19]

/-- Witness for C2: an achievement with both NotAchievable and
WasNotAchievable set is unlockable. -/
theorem C2_isUnlockable_witness :
    ({ flags := 0xC0000 } : Achievement).IsUnlockable = true :=
  (C2_isUnlockable_char { flags := 0xC0000 }).2.1 (by decide) (by decide)

/-- C9: Lock() makes IsUnlocked() and IsUnlockedOnline() false and zeroes the
unlock timestamp from any prior state, in particular right after any
Unlock(online) call. -/
theorem C9_lock_semantics (a : Achievement) (online : Bool) (now : Nat) :
    a.Lock.IsUnlocked = false ∧ a.Lock.IsUnlockedOnline = false ∧
    a.Lock.unlock_time = 0 ∧
    ((a.Unlock online now).Lock).IsUnlocked = false ∧
    ((a.Unlock online now).Lock).IsUnlockedOnline = false ∧
    ((a.Unlock online now).Lock).unlock_time = 0 := by
  have h17 : (0xFFFFFFFF ^^^ kAchieved).testBit 17 = false := by decide
  have h16 : (0xFFFFFFFF ^^^ kAchievedOnline).testBit 16 = false := by decide
  have key : ∀ b : Achievement, b.Lock.IsUnlocked = false ∧
      b.Lock.IsUnlockedOnline = false ∧ b.Lock.unlock_time = 0 := by
    intro b
    refine ⟨?_, ?_, rfl⟩
    · rw [isUnlocked_eq_testBit]
      simp [Achievement.Lock, Nat.testBit_land, h17]
    · rw [isUnlockedOnline_eq_testBit]
      simp [Achievement.Lock, Nat.testBit_land, h16]
  exact ⟨(key a).1, (key a).2.1, (key a).2.2, (key _).1, (key _).2.1,
    (key _).2.2⟩

/-- C3: evaluation at the failing input.  An entry whose string region is the
two units for characters 65 and 66 has no terminator inside its range; with
the adjacent memory holding the unit for 67 and then a zero,
ReadNullTermString returns three characters, so it consumed a unit beyond the
two-unit entry range, its result depends on the memory after the range, and
no error is reported (the function has no failure result at all) — contrary
to the claimed CorruptRecord failure. -/
theorem C3_read_past_range :
    ReadNullTermString ([byteSwap16 65, byteSwap16 66] ++ [byteSwap16 67, 0])
      = [65, 66, 67] ∧
    2 < (ReadNullTermString
      ([byteSwap16 65, byteSwap16 66] ++ [byteSwap16 67, 0])).length ∧
    ReadNullTermString ([byteSwap16 65, byteSwap16 66] ++ [0]) ≠
      ReadNullTermString
        ([byteSwap16 65, byteSwap16 66] ++ [byteSwap16 67, 0]) := by
  decide

/-- C4 counterexample: for the title name with the single character 65 and a
destination whose post-header memory holds two nonzero units, the units after
the header are not the name followed by a terminator: WriteGPD leaves the
unit after the name at its previous nonzero value instead of writing zero. -/
theorem C4_no_terminator_cex :
    ¬ ((({ title_name := [65] } : TitlePlayed).WriteGPD
        { text := [65535, 65535] }).text.take 2 = [byteSwap16 65, 0]) := by
  decide

/-- C4 (amended): TitlePlayed::WriteGPD writes the fixed header fields and
then exactly the name's characters in the format byte order after the header;
it writes no null terminator, so the destination units after the name keep
their previous contents. -/
theorem C4_writeGPD_amended (t : TitlePlayed) (d : GpdTitleDest) :
    (t.WriteGPD d).title_id = t.title_id ∧
    (t.WriteGPD d).achievements_possible = t.achievements_possible ∧
    (t.WriteGPD d).achievements_earned = t.achievements_earned ∧
    (t.WriteGPD d).gamerscore_total = t.gamerscore_total ∧
    (t.WriteGPD d).gamerscore_earned = t.gamerscore_earned ∧
    (t.WriteGPD d).reserved_achievement_count =
      t.reserved_achievement_count ∧
    (t.WriteGPD d).all_avatar_awards = t.all_avatar_awards ∧
    (t.WriteGPD d).male_avatar_awards = t.male_avatar_awards ∧
    (t.WriteGPD d).female_avatar_awards = t.female_avatar_awards ∧
    (t.WriteGPD d).reserved_flags = t.reserved_flags ∧
    (t.WriteGPD d).last_played = t.last_played ∧
    (t.WriteGPD d).text.take t.title_name.length =
      t.title_name.map byteSwap16 ∧
    (t.WriteGPD d).text.drop t.title_name.length =
      d.text.drop t.title_name.length := by
  refine ⟨rfl, rfl, rfl, rfl, rfl, rfl, rfl, rfl, rfl, rfl, rfl, ?_, ?_⟩
  · show (t.title_name.map byteSwap16 ++
      d.text.drop t.title_name.length).take t.title_name.length =
      t.title_name.map byteSwap16
    rw [show t.title_name.length = (t.title_name.map byteSwap16).length from
      (List.length_map _ _).symm, List.take_left]
  · show (t.title_name.map byteSwap16 ++
      d.text.drop t.title_name.length).drop t.title_name.length =
      d.text.drop t.title_name.length
    rw [show t.title_name.length = (t.title_name.map byteSwap16).length from
      (List.length_map _ _).symm, List.drop_left]

theorem pairsToUnits_encodeUnits (w : List Nat) (hw : ∀ u ∈ w, u < 65536)
    (tail : List Nat) :
    pairsToUnits (encodeUnits w ++ tail) = w ++ pairsToUnits tail := by
  induction w with
  | nil => simp [encodeUnits]
  | cons u rest ih =>
    have hu : u < 65536 := hw u (by simp)
    have hrest : ∀ x ∈ rest, x < 65536 := fun x hx => hw x (by simp [hx])
    have hhead : u / 256 % 256 * 256 + u % 256 = u := by omega
    simp [encodeUnits, pairsToUnits, ih hrest, hhead]

theorem encodeUnits_length (w : List Nat) :
    (encodeUnits w).length = 2 * w.length := by
  induction w with
  | nil => simp [encodeUnits]
  | cons u rest ih => simp [encodeUnits, ih]; omega

theorem takeWhile_ne_zero_append (w : List Nat) (hw : ∀ u ∈ w, u ≠ 0)
    (tail : List Nat) :
    ((w ++ 0 :: tail).takeWhile (· != 0)) = w := by
  induction w with
  | nil => simp
  | cons u rest ih =>
    have hu : u ≠ 0 := hw u (by simp)
    have hrest : ∀ x ∈ rest, x ≠ 0 := fun x hx => hw x (by simp [hx])
    simp [List.takeWhile_cons, hu, ih hrest]

/-- C5: assigning a 64-bit integer to a Setting whose mandated type is
DateTime is accepted (no TypeMismatch) and stores the DateTime tag, while a
mandated Int64 stores the Int64 tag. -/
theorem C5_u64_datetime_alias (table : Nat → XUserDataType) (s : Setting)
    (v : Nat) :
    (table s.id = XUserDataType.kDateTime →
      ∃ s', s.ValueU64 table v = Except.ok s' ∧
        s'.type = XUserDataType.kDateTime) ∧
    (table s.id = XUserDataType.kInt64 →
      ∃ s', s.ValueU64 table v = Except.ok s' ∧
        s'.type = XUserDataType.kInt64) := by
  constructor
  · intro h
    simp [Setting.ValueU64, h]
  · intro h
    simp [Setting.ValueU64, h]

/-- Witness for C5 at a concrete table, setting and value. -/
theorem C5_u64_witness :
    (∃ s', Setting.ValueU64 (fun _ => XUserDataType.kDateTime) {} 5 =
      Except.ok s' ∧ s'.type = XUserDataType.kDateTime) ∧
    (∃ s', Setting.ValueU64 (fun _ => XUserDataType.kInt64) {} 5 =
      Except.ok s' ∧ s'.type = XUserDataType.kInt64) :=
  ⟨(C5_u64_datetime_alias (fun _ => XUserDataType.kDateTime) {} 5).1 rfl,
   (C5_u64_datetime_alias (fun _ => XUserDataType.kInt64) {} 5).2 rfl⟩

/-- C6: each typed Value overload (u32, u64, float, double, wide string)
fails with TypeMismatch whenever the type it assigns disagrees with the
mandated type of the id, the one exception being a 64-bit integer under a
DateTime mandate (the alias of C5). -/
theorem C6_mismatch_fails (table : Nat → XUserDataType) (s : Setting)
    (tv : TypedValue) (h1 : table s.id ≠ naturalType tv)
    (h2 : ¬(naturalType tv = XUserDataType.kInt64 ∧
      table s.id = XUserDataType.kDateTime)) :
    s.SetValue table tv = Except.error XdbfError.TypeMismatch := by
  cases tv with
  | u32 v =>
    have h : table s.id ≠ XUserDataType.kInt32 := h1
    simp [Setting.SetValue, Setting.ValueU32, h]
  | u64 v =>
    have hdt : table s.id ≠ XUserDataType.kDateTime := fun hd => h2 ⟨rfl, hd⟩
    have hi : table s.id ≠ XUserDataType.kInt64 := h1
    simp [Setting.SetValue, Setting.ValueU64, hdt, hi]
  | flt b =>
    have h : table s.id ≠ XUserDataType.kFloat := h1
    simp [Setting.SetValue, Setting.ValueF32, h]
  | dbl b =>
    have h : table s.id ≠ XUserDataType.kDouble := h1
    simp [Setting.SetValue, Setting.ValueF64, h]
  | str w =>
    have h : table s.id ≠ XUserDataType.kUnicode := h1
    simp [Setting.SetValue, Setting.ValueWString, h]

/-- Witness for C6: a string value under an Int32 mandate fails with
TypeMismatch. -/
theorem C6_mismatch_witness :
    Setting.SetValue (fun _ => XUserDataType.kInt32) {}
      (TypedValue.str [72]) = Except.error XdbfError.TypeMismatch :=
  C6_mismatch_fails (fun _ => XUserDataType.kInt32) {} (TypedValue.str [72])
    (by decide) (by decide)

/-- C7: for a wide string without embedded null characters (and with genuine
16-bit code units), assigning it to a Unicode-mandated Setting and reading it
back through ValueString returns the same string. -/
theorem C7_string_roundtrip (table : Nat → XUserDataType) (s : Setting)
    (w : List Nat) (hty : table s.id = XUserDataType.kUnicode)
    (hw : ∀ u ∈ w, u ≠ 0 ∧ u < 65536) :
    ∃ s', s.ValueWString table w = Except.ok s' ∧
      s'.ValueString = some w := by
  have henc : pairsToUnits (encodeUnits w ++ [0, 0]) = w ++ [0] := by
    have h := pairsToUnits_encodeUnits w (fun u hu => (hw u hu).2) [0, 0]
    simpa [pairsToUnits] using h
  have htake : ((w ++ [0]).takeWhile (· != 0)) = w :=
    takeWhile_ne_zero_append w (fun u hu => (hw u hu).1) []
  refine ⟨{ s with
    type := XUserDataType.kUnicode
    i64Data := 0
    cbData := (w.length + 1) * 2
    extraData := encodeUnits w ++ [0, 0] }, ?_, ?_⟩
  · simp [Setting.ValueWString, hty]
  · simp [Setting.ValueString, henc, htake]

/-- Witness for C7 at a concrete table and string. -/
theorem C7_string_witness :
    ∃ s', Setting.ValueWString (fun _ => XUserDataType.kUnicode) {}
      [72, 105] = Except.ok s' ∧ s'.ValueString = some [72, 105] :=
  C7_string_roundtrip (fun _ => XUserDataType.kUnicode) {} [72, 105] rfl
    (by decide)

/-- C8: assigning a wide string of n characters stores an out-of-line buffer
whose length field is (n + 1) times the unit size, whose byte length equals
that field, and whose stored units (read back in the format byte order) are
the characters followed by a zero terminator unit. -/
theorem C8_string_encoding (table : Nat → XUserDataType) (s : Setting)
    (w : List Nat) (hty : table s.id = XUserDataType.kUnicode)
    (hw : ∀ u ∈ w, u < 65536) :
    ∃ s', s.ValueWString table w = Except.ok s' ∧
      s'.cbData = (w.length + 1) * 2 ∧
      s'.extraData.length = s'.cbData ∧
      pairsToUnits s'.extraData = w ++ [0] := by
  have henc : pairsToUnits (encodeUnits w ++ [0, 0]) = w ++ [0] := by
    have h := pairsToUnits_encodeUnits w hw [0, 0]
    simpa [pairsToUnits] using h
  refine ⟨{ s with
    type := XUserDataType.kUnicode
    i64Data := 0
    cbData := (w.length + 1) * 2
    extraData := encodeUnits w ++ [0, 0] }, ?_, rfl, ?_, ?_⟩
  · simp [Setting.ValueWString, hty]
  · simp [encodeUnits_length]; omega
  · exact henc

/-- Witness for C8 at a concrete table and string. -/
theorem C8_string_witness :
    ∃ s', Setting.ValueWString (fun _ => XUserDataType.kUnicode) {} [72] =
      Except.ok s' ∧ s'.cbData = 4 ∧ s'.extraData.length = s'.cbData ∧
      pairsToUnits s'.extraData = [72, 0] :=
  C8_string_encoding (fun _ => XUserDataType.kUnicode) {} [72] rfl
    (by decide)

/-- C10: the raw-bytes constructor attaches a Binary-tagged value with the
given bytes to any setting id without consulting any mandated-type table and
without any error path, even when the mandate for that id is not Binary. -/
theorem C10_binary_unchecked (table : Nat → XUserDataType) (id : Nat)
    (bytes : List Nat) (_h : table id ≠ XUserDataType.kBinary) :
    (mkBinarySetting id bytes).type = XUserDataType.kBinary ∧
    (mkBinarySetting id bytes).extraData = bytes ∧
    (mkBinarySetting id bytes).id = id :=
  ⟨rfl, rfl, rfl⟩

/-- Witness for C10: binary bytes attach under an Int32 mandate. -/
theorem C10_binary_witness :
    (mkBinarySetting 0 [1, 2, 3]).type = XUserDataType.kBinary ∧
    (mkBinarySetting 0 [1, 2, 3]).extraData = [1, 2, 3] ∧
    (mkBinarySetting 0 [1, 2, 3]).id = 0 :=
  C10_binary_unchecked (fun _ => XUserDataType.kInt32) 0 [1, 2, 3]
    (by decide)

end Xdbf
